import Mathlib

/-!
Verification development for the JoeSandbox → Microsoft Sentinel
threat-intelligence connector (`Source/JoeSandboxThreatIntelligence/JoeSandbox/utils.py`).

The Python source is shallowly embedded: Python dict entries become
association lists over a small dynamic value type `PyVal`; wall-clock
reads become explicit `DateTime` parameters; the two HTTP calls inside
`create_indicator` become an oracle `Nat → Attempt` giving the outcome of
each loop iteration; exceptions become `Except`.  Configuration constants
that live in the repository's `const.py` (absent from the sources at hand)
are modelled from the spec and marked as such in their doc comments.
-/

namespace JoeSandbox

/-- Dynamic values stored in the semi-structured analysis report.  Models
the Python values that actually flow through `utils.py`: `None`, `bool`,
`str` and `int`. -/
inductive PyVal where
  | pnone : PyVal
  | pbool : Bool → PyVal
  | pstr  : String → PyVal
  | pint  : Int → PyVal
deriving DecidableEq, Repr

/-- A Python dict as used for report entries and analysis metadata:
an association list from string keys to dynamic values. -/
def Dict : Type := List (String × PyVal)

/-- Model of `d.get(k)`: the value at the first occurrence of key `k`,
or Python `None` when the key is absent. -/
def pyGet (d : Dict) (k : String) : PyVal :=
  match d.find? (fun p => p.1 = k) with
  | Option.some p => p.2
  | Option.none => PyVal.pnone

/-- Model of `d.get(k, default)`. -/
def pyGetD (d : Dict) (k : String) (dflt : PyVal) : PyVal :=
  match d.find? (fun p => p.1 = k) with
  | Option.some p => p.2
  | Option.none => dflt

/-- Python truthiness for the modelled values: `bool(None) = False`,
`bool(s) = (s != "")`, `bool(n) = (n != 0)`. -/
def truthy : PyVal → Bool
  | PyVal.pnone => false
  | PyVal.pbool b => b
  | PyVal.pstr s => s ≠ ""
  | PyVal.pint n => n ≠ 0

/-- Python `str()` of a modelled value, as produced by f-string
interpolation: `str(None) = "None"`, `str(True) = "True"`. -/
def pyStr : PyVal → String
  | PyVal.pnone => "None"
  | PyVal.pbool b => if b then "True" else "False"
  | PyVal.pstr s => s
  | PyVal.pint n => toString n

/-- Python whitespace as stripped by `str.strip()` (the ASCII portion,
which is all that verdict flags can contain). -/
def isPyWhitespace (c : Char) : Bool :=
  c = ' ' || c = '\t' || c = '\n' || c = '\x0d' || c = '\x0b' || c = '\x0c'

/-- ASCII lowercasing of one character, as `str.lower()` acts on the
ASCII strings reaching `str_to_bool`. -/
def charAsciiLower (c : Char) : Char :=
  if 'A' ≤ c ∧ c ≤ 'Z' then Char.ofNat (c.toNat + 32) else c

/-- Model of `value.strip().lower()` on the modelled strings. -/
def pyStripLower (s : String) : String :=
  String.mk ((((s.data.dropWhile isPyWhitespace).reverse.dropWhile
    isPyWhitespace).reverse).map charAsciiLower)

/-- Python `s.split(sep)` for a one-character separator, accumulating the
current piece in reverse. -/
def splitOnCharGo (sep : Char) : List Char → List Char → List String
  | [], acc => [String.mk acc.reverse]
  | c :: rest, acc =>
      if c = sep then String.mk acc.reverse :: splitOnCharGo sep rest []
      else splitOnCharGo sep rest (c :: acc)

/-- Python `s.split(sep)` for a one-character separator: always at least
one piece, empty pieces preserved. -/
def splitOnChar (sep : Char) (s : String) : List String :=
  splitOnCharGo sep s.data []

/-- Value of a string of decimal digits. -/
def digitsToNat (l : List Char) : Nat :=
  l.foldl (fun a c => a * 10 + (c.toNat - 48)) 0

/-- Model of the fragment of Python `json.loads` reachable from
`str_to_bool`: the argument has already been lowercased, so the JSON
literals `true`, `false`, `null` and (optionally signed) integer numerals
are the accepted inputs relevant here; everything else raises
`json.JSONDecodeError`, modelled as `Except.error`.  (Other JSON values —
floats, strings, containers — are not produced by verdict flags and are
mapped to the same error; they never occur in the claims.) -/
def jsonLoads (s : String) : Except String PyVal :=
  if s = "true" then Except.ok (PyVal.pbool true)
  else if s = "false" then Except.ok (PyVal.pbool false)
  else if s = "null" then Except.ok PyVal.pnone
  else if s ≠ "" ∧ s.data.all Char.isDigit then
    Except.ok (PyVal.pint (Int.ofNat (digitsToNat s.data)))
  else if s.data.head? = Option.some '-' ∧ s.data.tail ≠ [] ∧ s.data.tail.all Char.isDigit then
    Except.ok (PyVal.pint (- (Int.ofNat (digitsToNat s.data.tail))))
  else Except.error "Expecting value"

/-- Embedding of `str_to_bool` (utils.py line 123):
`loads(value.strip().lower()) if isinstance(value, str) else bool(value)`.
For a string the raw `json.loads` result is returned (it may be any JSON
value, not only a bool); for a non-string, ordinary truthiness applies.
A `json.JSONDecodeError` propagates as `Except.error`. -/
def str_to_bool (v : PyVal) : Except String PyVal :=
  match v with
  | PyVal.pstr s => jsonLoads (pyStripLower s)
  | _ => Except.ok (PyVal.pbool (truthy v))

/-- Big-endian byte serialisation of a natural number into `count` bytes. -/
def toBytesBE : Nat → Nat → List Nat
  | 0, _ => []
  | n + 1, v => toBytesBE n (v / 256) ++ [v % 256]

/-- Rotate a 32-bit word left by `k` bits. -/
def rotl32 (k x : Nat) : Nat := ((x <<< k) ||| (x >>> (32 - k))) % 4294967296

/-- Group a byte list into 64-byte chunks (fuel-based so that the kernel can
evaluate it; the fuel is the list length, which bounds the chunk count). -/
def chunks64Go : Nat → List Nat → List (List Nat)
  | 0, _ => []
  | _, [] => []
  | fuel + 1, b :: rest => ((b :: rest).take 64) :: chunks64Go fuel (rest.drop 63)

/-- Group a byte list into 64-byte chunks. -/
def chunks64 (l : List Nat) : List (List Nat) := chunks64Go l.length l

/-- Convert bytes to big-endian 32-bit words, four bytes per word. -/
def bytesToWords : List Nat → List Nat
  | b0 :: b1 :: b2 :: b3 :: rest =>
      (((b0 * 256 + b1) * 256 + b2) * 256 + b3) :: bytesToWords rest
  | _ => []

/-- Extend the 16 schedule words to 80 by appending `n` derived words. -/
def sha1Extend : Nat → List Nat → List Nat
  | 0, w => w
  | n + 1, w =>
      let t := rotl32 1 ((w.getD (w.length - 3) 0) ^^^ (w.getD (w.length - 8) 0) ^^^
        (w.getD (w.length - 14) 0) ^^^ (w.getD (w.length - 16) 0))
      sha1Extend n (w ++ [t])

/-- SHA-1 round function, by round index. -/
def sha1F (i b c d : Nat) : Nat :=
  if i < 20 then (b &&& c) ||| ((b ^^^ 4294967295) &&& d)
  else if i < 40 then b ^^^ c ^^^ d
  else if i < 60 then (b &&& c) ||| (b &&& d) ||| (c &&& d)
  else b ^^^ c ^^^ d

/-- SHA-1 round constant, by round index. -/
def sha1K (i : Nat) : Nat :=
  if i < 20 then 0x5A827999
  else if i < 40 then 0x6ED9EBA1
  else if i < 60 then 0x8F1BBCDC
  else 0xCA62C1D6

/-- One SHA-1 round on the five-word state. -/
def sha1Round (w : List Nat) (st : Nat × Nat × Nat × Nat × Nat) (i : Nat) :
    Nat × Nat × Nat × Nat × Nat :=
  match st with
  | (a, b, c, d, e) =>
      let temp := (rotl32 5 a + sha1F i b c d + e + sha1K i + w.getD i 0) % 4294967296
      (temp, a, rotl32 30 b, c, d)

/-- Process one 64-byte chunk, updating the five-word hash state. -/
def sha1Chunk (h : List Nat) (chunk : List Nat) : List Nat :=
  let w := sha1Extend 64 (bytesToWords chunk)
  let st0 := (h.getD 0 0, h.getD 1 0, h.getD 2 0, h.getD 3 0, h.getD 4 0)
  match (List.range 80).foldl (sha1Round w) st0 with
  | (a, b, c, d, e) =>
      [(h.getD 0 0 + a) % 4294967296, (h.getD 1 0 + b) % 4294967296,
       (h.getD 2 0 + c) % 4294967296, (h.getD 3 0 + d) % 4294967296,
       (h.getD 4 0 + e) % 4294967296]

/-- SHA-1 message padding: a 0x80 byte, zeros to 56 mod 64, then the
original bit length as an 8-byte big-endian integer. -/
def sha1Pad (msg : List Nat) : List Nat :=
  msg ++ [128] ++ List.replicate ((120 - ((msg.length + 1) % 64)) % 64) 0 ++
    toBytesBE 8 (msg.length * 8)

/-- SHA-1 digest (20 bytes) of a byte string, as used by Python
`uuid.uuid5` for name-based UUID generation. -/
def sha1 (msg : List Nat) : List Nat :=
  ((chunks64 (sha1Pad msg)).foldl sha1Chunk
    [0x67452301, 0xEFCDAB89, 0x98BADCFE, 0x10325476, 0xC3D2E1F0]).foldl
      (fun acc w => acc ++ toBytesBE 4 w) []

/-- UTF-8 encoding of one character. -/
def utf8Char (c : Char) : List Nat :=
  let n := c.toNat
  if n < 128 then [n]
  else if n < 2048 then [192 + n / 64, 128 + n % 64]
  else if n < 65536 then [224 + n / 4096, 128 + (n / 64) % 64, 128 + n % 64]
  else [240 + n / 262144, 128 + (n / 4096) % 64, 128 + (n / 64) % 64, 128 + n % 64]

/-- UTF-8 encoding of a string, as Python `uuid.uuid5` applies to the name. -/
def utf8Encode (s : String) : List Nat := s.data.foldl (fun acc c => acc ++ utf8Char c) []

/-- The 16 bytes of Python `uuid.NAMESPACE_DNS`
(`6ba7b810-9dad-11d1-80b4-00c04fd430c8`). -/
def NAMESPACE_DNS : List Nat :=
  [0x6b, 0xa7, 0xb8, 0x10, 0x9d, 0xad, 0x11, 0xd1,
   0x80, 0xb4, 0x00, 0xc0, 0x4f, 0xd4, 0x30, 0xc8]

/-- Python `uuid.uuid5(namespace, name)`: the first 16 bytes of
`sha1(namespace.bytes + name.encode())`, with the version nibble of byte 6
set to 5 and the variant bits of byte 8 set to `10`. -/
def uuid5 (ns : List Nat) (name : String) : List Nat :=
  match (sha1 (ns ++ utf8Encode name)).take 16 with
  | [b0, b1, b2, b3, b4, b5, b6, b7, b8, b9, b10, b11, b12, b13, b14, b15] =>
      [b0, b1, b2, b3, b4, b5, (b6 % 16) ||| 0x50, b7,
       (b8 % 64) ||| 0x80, b9, b10, b11, b12, b13, b14, b15]
  | l => l

/-- Two lowercase hex digits of one byte. -/
def hexByte (b : Nat) : List Char := [Nat.digitChar (b / 16 % 16), Nat.digitChar (b % 16)]

/-- Python `str(UUID(...))`: lowercase hex in 8-4-4-4-12 grouping. -/
def uuidToString (bs : List Nat) : String :=
  match bs with
  | [b0, b1, b2, b3, b4, b5, b6, b7, b8, b9, b10, b11, b12, b13, b14, b15] =>
      String.mk (hexByte b0 ++ hexByte b1 ++ hexByte b2 ++ hexByte b3 ++ ['-'] ++
        hexByte b4 ++ hexByte b5 ++ ['-'] ++ hexByte b6 ++ hexByte b7 ++ ['-'] ++
        hexByte b8 ++ hexByte b9 ++ ['-'] ++ hexByte b10 ++ hexByte b11 ++
        hexByte b12 ++ hexByte b13 ++ hexByte b14 ++ hexByte b15)
  | _ => ""

/-- Embedding of `generate_unique_id` (utils.py line 240): derive a custom
namespace UUID from the threat source under `NAMESPACE_DNS`, then the
indicator UUID from `"<type>:<value>"` under that namespace, and prefix
with `indicator--`. -/
def generate_unique_id (indicator_type indicator_value : String)
    (threat_source : String := "JoeSandbox") : String :=
  let custom_namespace := uuid5 NAMESPACE_DNS threat_source
  let name_string := indicator_type ++ ":" ++ indicator_value
  "indicator--" ++ uuidToString (uuid5 custom_namespace name_string)

/-- A UTC wall-clock reading, as produced by Python
`datetime.now(timezone.utc)`: the fields consumed by the formatting code.
The Python invariant `microsecond < 1000000` is assumed where needed. -/
structure DateTime where
  year : Nat
  month : Nat
  day : Nat
  hour : Nat
  minute : Nat
  second : Nat
  microsecond : Nat
deriving DecidableEq, Repr

/-- Decimal rendering of `n` zero-padded to width 2 (Python `%02d`);
numbers of three or more digits print in full. -/
def pad2 (n : Nat) : String :=
  if n < 100 then String.mk [Nat.digitChar (n / 10 % 10), Nat.digitChar (n % 10)]
  else Nat.repr n

/-- Decimal rendering of `n` zero-padded to width 3 (Python `%03d`). -/
def pad3 (n : Nat) : String :=
  if n < 1000 then
    String.mk [Nat.digitChar (n / 100 % 10), Nat.digitChar (n / 10 % 10), Nat.digitChar (n % 10)]
  else Nat.repr n

/-- Decimal rendering of `n` zero-padded to width 4 (Python `%04d`). -/
def pad4 (n : Nat) : String :=
  if n < 10000 then
    String.mk [Nat.digitChar (n / 1000 % 10), Nat.digitChar (n / 100 % 10),
      Nat.digitChar (n / 10 % 10), Nat.digitChar (n % 10)]
  else Nat.repr n

/-- Modelled from the spec: `UTC_DATE_FORMAT` lives in the absent
`const.py`; the spec and the `get_utc_time` docstring example
(`2025-06-26T14:03:12.123Z`) fix it as the ISO-8601 second-precision
format `%Y-%m-%dT%H:%M:%S`, rendered here by `strftimeUTC`. -/
def strftimeUTC (t : DateTime) : String :=
  pad4 t.year ++ "-" ++ pad2 t.month ++ "-" ++ pad2 t.day ++ "T" ++
    pad2 t.hour ++ ":" ++ pad2 t.minute ++ ":" ++ pad2 t.second

/-- Embedding of `get_utc_time` (utils.py line 266): the strftime rendering
of the current time plus `.` , the microseconds truncated to milliseconds
zero-padded to three digits, and a literal `Z`.  The wall-clock reading is
an explicit argument. -/
def get_utc_time (t : DateTime) : String :=
  strftimeUTC t ++ "." ++ pad3 (t.microsecond / 1000) ++ "Z"

/-- Modelled from the spec: the `CONFIDENCE` table lives in the absent
`const.py`; per the spec it is a fixed mapping from detection-verdict
strings to integer scores, with absent keys defaulting to 0.  It is kept
abstract as a parameter of the context below. -/
def confidenceLookup (table : List (String × Int)) (v : PyVal) : Int :=
  match v with
  | PyVal.pstr s =>
      match table.find? (fun p => p.1 = s) with
      | Option.some p => p.2
      | Option.none => 0
  | _ => 0

/-- Ambient context for indicator construction: the configuration read
from the absent `const.py` (`CONFIDENCE`, `joe_config.BASE_URL`) and the
wall-clock readings taken during `get_static_data` (`created`, `modified`
and `valid_from` each call `get_utc_time()`; `expiration` stands for
`datetime.now(timezone.utc) + timedelta(days=int(joe_config.VALID_UNTIL))`,
whose calendar arithmetic is external to the formatting logic verified
here). -/
structure Ctx where
  confidence : List (String × Int)
  base_url : String
  tCreated : DateTime
  tModified : DateTime
  tValidFrom : DateTime
  tExpiration : DateTime

/-- The canonical indicator record built by `get_static_data`: one field
per key of the Python dict literal, in source order. -/
structure StaticData where
  type : String
  spec_version : String
  id : String
  created : String
  modified : String
  revoked : Bool
  labels : List String
  confidence : Int
  name : PyVal
  description : String
  indicator_types : List String
  pattern : String
  pattern_type : String
  pattern_version : String
  valid_from : String
  valid_until : String
deriving DecidableEq, Repr

/-- Embedding of `get_static_data` (utils.py line 284).  The four tag
strings interpolate report metadata with Python `str()` semantics
(`None` for absent `webid`); confidence is looked up in the `CONFIDENCE`
table with default 0; `valid_until` is the expiration time rendered with
`strftime(f"{UTC_DATE_FORMAT}Z")`, i.e. second precision plus `Z`. -/
def get_static_data (cfg : Ctx) (unique_uuid : String) (analysis_data : Dict)
    (pattern : String) (ioc_value : PyVal) (ioc_type : String) : StaticData :=
  let web_id := pyGet analysis_data "webid"
  { type := "indicator"
    spec_version := "2.1"
    id := unique_uuid
    created := get_utc_time cfg.tCreated
    modified := get_utc_time cfg.tModified
    revoked := false
    labels := ["web_id: " ++ pyStr web_id,
      "threat_names: " ++ pyStr (pyGetD analysis_data "threatname" (PyVal.pstr "")),
      "classification: " ++ pyStr (pyGetD analysis_data "classification" (PyVal.pstr "")),
      "detection: " ++ pyStr (pyGetD analysis_data "detection" (PyVal.pstr ""))]
    confidence := confidenceLookup cfg.confidence (pyGetD analysis_data "detection" (PyVal.pstr ""))
    name := ioc_value
    description := "Analysis URL: " ++ cfg.base_url ++ "/analysis/" ++ pyStr web_id
    indicator_types := [ioc_type]
    pattern := pattern
    pattern_type := "stix"
    pattern_version := "2.1"
    valid_from := get_utc_time cfg.tValidFrom
    valid_until := strftimeUTC cfg.tExpiration ++ "Z" }

/-- Hex digit test as in CPython `ipaddress._parse_hextet`
(membership in `0123456789ABCDEFabcdef`). -/
def isHexDigitChar (c : Char) : Bool :=
  c.isDigit || ('a' ≤ c && c ≤ 'f') || ('A' ≤ c && c ≤ 'F')

/-- Numeric value of a hex digit. -/
def hexVal (c : Char) : Nat :=
  if c.isDigit then c.toNat - 48
  else if 'a' ≤ c && c ≤ 'f' then c.toNat - 87
  else c.toNat - 55

/-- CPython `ipaddress` octet parsing for dotted-quad IPv4 text: nonempty,
ASCII digits only, at most 3 characters, no leading zero (except the
single digit 0), value at most 255. -/
def parseOctet (s : String) : Option Nat :=
  if s.data = [] then Option.none
  else if ¬ s.data.all Char.isDigit then Option.none
  else if s.data.length > 3 then Option.none
  else if s ≠ "0" ∧ s.data.head? = Option.some '0' then Option.none
  else
    let n := s.data.foldl (fun a c => a * 10 + (c.toNat - 48)) 0
    if n > 255 then Option.none else Option.some n

/-- CPython `IPv4Address(str)` parsing: reject `/`, split on `.` into
exactly four octets, parse each octet. -/
def parseIPv4 (s : String) : Option Nat :=
  if s.data.contains '/' then Option.none
  else match splitOnChar '.' s with
  | [a, b, c, d] =>
      match parseOctet a, parseOctet b, parseOctet c, parseOctet d with
      | Option.some x, Option.some y, Option.some z, Option.some w =>
          Option.some (((x * 256 + y) * 256 + z) * 256 + w)
      | _, _, _, _ => Option.none
  | _ => Option.none

/-- CPython `ipaddress._parse_hextet`: hex digits only, at most 4 of them,
and nonempty (the empty string fails the final int conversion). -/
def parseHextet (s : String) : Option Nat :=
  if ¬ s.data.all isHexDigitChar then Option.none
  else if s.data.length > 4 then Option.none
  else if s.data = [] then Option.none
  else Option.some (s.data.foldl (fun a c => a * 16 + hexVal c) 0)

/-- Lowercase hex rendering of a natural number (Python `"%x" % n`),
fuel-based for kernel evaluability. -/
def natToHexGo : Nat → Nat → List Char
  | 0, _ => []
  | fuel + 1, n => if n = 0 then [] else natToHexGo fuel (n / 16) ++ [Nat.digitChar (n % 16)]

/-- Lowercase hex rendering of a natural number (Python `"%x" % n`). -/
def natToHexLower (n : Nat) : String :=
  if n = 0 then "0" else String.mk (natToHexGo n n)

/-- Indices of empty groups strictly between the first and last `:`-split
part, used to locate a `::` abbreviation. -/
def middleEmpties (parts : List String) : List Nat :=
  (List.range parts.length).filter
    (fun i => 0 < i ∧ i + 1 < parts.length ∧ parts.getD i "" = "")

/-- All parts parse as hextets. -/
def allHextets (l : List String) : Bool := l.all (fun p => (parseHextet p).isSome)

/-- CPython `ipaddress.IPv6Address._ip_int_from_string` validity (the
numeric value is not needed by the connector): at least 3 `:`-split parts;
an embedded dotted-quad IPv4 suffix is parsed and replaced by its two
16-bit groups; at most 9 parts; at most one `::` abbreviation, mandatory
when fewer than 8 groups are present, with leading/trailing single colons
rejected. -/
def ipv6AddrValid (addr : String) : Bool :=
  let parts0 := splitOnChar ':' addr
  if parts0.length < 3 then false
  else
    match (if (parts0.getLastD "").data.contains '.' then
              match parseIPv4 (parts0.getLastD "") with
              | Option.some v => Option.some (parts0.dropLast ++
                  [natToHexLower (v / 65536), natToHexLower (v % 65536)])
              | Option.none => Option.none
            else Option.some parts0) with
    | Option.none => false
    | Option.some parts =>
      let n := parts.length
      if n > 9 then false
      else
        match middleEmpties parts with
        | [] =>
            if n ≠ 8 then false
            else if parts.getD 0 "" = "" then false
            else if parts.getD (n - 1) "" = "" then false
            else allHextets parts
        | [i] =>
            let hi := if parts.getD 0 "" = "" then i - 1 else i
            if parts.getD 0 "" = "" ∧ hi ≠ 0 then false
            else
              let lo := if parts.getD (n - 1) "" = "" then n - i - 2 else n - i - 1
              if parts.getD (n - 1) "" = "" ∧ lo ≠ 0 then false
              else if hi + lo > 7 then false
              else allHextets (parts.take hi) && allHextets (parts.drop (n - lo))
        | _ => false

/-- CPython `IPv6Address(str)` parsing: reject `/`, split off an optional
nonempty `%scope` suffix (a second `%` is rejected), then validate the
address text. -/
def parseIPv6Valid (s : String) : Bool :=
  if s.data.contains '/' then false
  else match splitOnChar '%' s with
  | [addr] => ipv6AddrValid addr
  | [addr, scope] => scope ≠ "" && ipv6AddrValid addr
  | _ => false

/-- Embedding of `check_ip` (utils.py line 96): classify a string via
`ipaddress.ip_address`, which tries IPv4 first, then IPv6; a string that
parses as neither yields `none` (the Python function returns `None`). -/
def check_ip (ip : String) : Option String :=
  if (parseIPv4 ip).isSome then Option.some "ipv4-addr"
  else if parseIPv6Valid ip then Option.some "ipv6-addr"
  else Option.none

/-- `check_ip` applied to a dynamic value, following
`ipaddress.ip_address` semantics: an `int` (and `bool`, an int subclass)
is classified by range; any other value is classified by parsing its
`str()` rendering. -/
def checkIpVal : PyVal → Option String
  | PyVal.pint n =>
      if 0 ≤ n ∧ n < 4294967296 then Option.some "ipv4-addr"
      else if 0 ≤ n ∧ n < 340282366920938463463374607431768211456 then
        Option.some "ipv6-addr"
      else Option.none
  | PyVal.pbool _ => Option.some "ipv4-addr"
  | v => check_ip (pyStr v)

/-- Modelled from the spec: `HASH_TYPE_LIST` lives in the absent
`const.py`.  Per the spec it is a fixed ordered list of supported hash
algorithms — MD5, SHA1, SHA256 — each paired with the report key carrying
that hash value. -/
def HASH_TYPE_LIST : List (String × String) :=
  [("MD5", "md5"), ("SHA-1", "sha1"), ("SHA-256", "sha256")]

/-- Body of one iteration of the `add_domain_indicators` loop (the code
inside the per-entry `try`): build the pattern, id and indicator for one
domain entry.  The body is total, so the enclosing `except` never fires. -/
def domainStep (cfg : Ctx) (domain : Dict) (analysis_data : Dict) : List StaticData :=
  let domain_value := pyGet domain "name"
  let pattern := "[domain-name:value = \x27" ++ pyStr domain_value ++ "\x27]"
  let unique_id := generate_unique_id "domain" (pyStr domain_value)
  [get_static_data cfg unique_id analysis_data pattern domain_value "domain"]

/-- Embedding of `add_domain_indicators` (utils.py line 22): skip entries
whose `malicious` flag is not truthy, emit one indicator per remaining
entry; a per-entry failure would be caught and logged, leaving the rest of
the list processed. -/
def add_domain_indicators (cfg : Ctx) : List Dict → Dict → List StaticData
  | [], _ => []
  | d :: rest, meta =>
      if truthy (pyGet d "malicious") then
        domainStep cfg d meta ++ add_domain_indicators cfg rest meta
      else add_domain_indicators cfg rest meta

/-- Body of one iteration of the `add_url_indicators` loop. -/
def urlStep (cfg : Ctx) (url_entry : Dict) (analysis_data : Dict) : List StaticData :=
  let url_value := pyGetD url_entry "name" (PyVal.pstr "")
  let pattern := "[url:value = \x27" ++ pyStr url_value ++ "\x27]"
  let unique_id := generate_unique_id "url" (pyStr url_value)
  [get_static_data cfg unique_id analysis_data pattern url_value "url"]

/-- Embedding of `add_url_indicators` (utils.py line 170). -/
def add_url_indicators (cfg : Ctx) : List Dict → Dict → List StaticData
  | [], _ => []
  | u :: rest, meta =>
      if truthy (pyGet u "malicious") then
        urlStep cfg u meta ++ add_url_indicators cfg rest meta
      else add_url_indicators cfg rest meta

/-- Body of one iteration of the `add_file_indicators` loop: for each
algorithm of `HASH_TYPE_LIST` whose key carries a truthy value, emit one
indicator patterned on that hash, labelled by the filename when truthy
and by the hash value otherwise. -/
def fileStep (cfg : Ctx) (file : Dict) (analysis_data : Dict) : List StaticData :=
  let filename := pyGetD file "name" (PyVal.pstr "")
  HASH_TYPE_LIST.filterMap (fun p =>
    let hash_value := pyGet file p.2
    if truthy hash_value then
      let pattern := "[file:hashes.\x27" ++ p.1 ++ "\x27 = \x27" ++ pyStr hash_value ++ "\x27]"
      let unique_id := generate_unique_id "file" (pyStr hash_value)
      let label := if truthy filename then filename else hash_value
      Option.some (get_static_data cfg unique_id analysis_data pattern label "file")
    else Option.none)

/-- Embedding of `add_file_indicators` (utils.py line 54). -/
def add_file_indicators (cfg : Ctx) : List Dict → Dict → List StaticData
  | [], _ => []
  | f :: rest, meta =>
      if truthy (pyGet f "malicious") then
        fileStep cfg f meta ++ add_file_indicators cfg rest meta
      else add_file_indicators cfg rest meta

/-- Body of one iteration of the `add_ip_indicators` loop (the code inside
the per-entry `try`): an entry whose value parses as neither IPv4 nor IPv6
is skipped with a logged warning, contributing no indicator and raising
nothing. -/
def ipStep (cfg : Ctx) (ip_entry : Dict) (analysis_data : Dict) : List StaticData :=
  let ip_add := pyGetD ip_entry "$" (PyVal.pstr "")
  match checkIpVal ip_add with
  | Option.none => []
  | Option.some ip_type =>
      let pattern := "[" ++ ip_type ++ ":value = \x27" ++ pyStr ip_add ++ "\x27]"
      let unique_id := generate_unique_id "ip" (pyStr ip_add)
      [get_static_data cfg unique_id analysis_data pattern ip_add ip_type]

/-- Embedding of `add_ip_indicators` (utils.py line 130).  The verdict
coercion `str_to_bool(ip_entry.get("@malicious"))` runs before — and
outside — the per-entry `try` block, so a `json.JSONDecodeError` raised by
an unparseable verdict string propagates out of the whole function,
modelled as `Except.error`. -/
def add_ip_indicators (cfg : Ctx) : List Dict → Dict → Except String (List StaticData)
  | [], _ => Except.ok []
  | e :: rest, meta =>
      match str_to_bool (pyGet e "@malicious") with
      | Except.error m => Except.error m
      | Except.ok v =>
          if truthy v then
            match add_ip_indicators cfg rest meta with
            | Except.error m => Except.error m
            | Except.ok l => Except.ok (ipStep cfg e meta ++ l)
          else add_ip_indicators cfg rest meta

/-- Outcome of one iteration of the `create_indicator` retry loop, i.e. of
the authentication POST followed by the ingestion POST: either both calls
returned HTTP responses (with the given status codes), or a
connection-level `RequestException` was raised, or some other unexpected
exception occurred. -/
inductive Attempt where
  | http : Nat → Nat → Attempt
  | connErr : Attempt
  | otherErr : String → Attempt
deriving DecidableEq, Repr

/-- Result of `create_indicator`: success, an immediately surfaced
HTTPError (carrying the failing status), connection failure after
exhausted retries, an unexpected error, or the terminal
`Failed to create indicator after multiple retries.` exception raised when
the loop guard `retry_count_429 <= retry` goes false.  Each constructor
records the number of attempts made and of sleeps performed. -/
inductive CIResult where
  | success : Nat → Nat → CIResult
  | httpFailure : Nat → Nat → Nat → CIResult
  | connFailure : Nat → Nat → CIResult
  | otherFailure : String → Nat → Nat → CIResult
  | retriesExhausted : Nat → Nat → CIResult
deriving DecidableEq, Repr

/-- Truthiness of a `requests.Response`: `Response.__bool__` returns
`self.ok`, which is `False` exactly when the status code is in 400..599.
This is the value tested by `if herr.response:` in `create_indicator`. -/
def responseOk (status : Nat) : Bool := !(decide (400 ≤ status) && decide (status < 600))

/-- One step of the `create_indicator` loop (utils.py lines 389-450).
`raise_for_status` raises `HTTPError` exactly when a status is in
400..599; the handler retries (incrementing `retry_count_429` and
sleeping) only when `if herr.response:` — the truthiness of the attached
`Response`, i.e. `responseOk` — holds and the status is in
`RETRY_STATUS_CODE`, and otherwise re-raises; a connection error retries
while `retry_connection < retry`.  The structural `budget` argument is the
maximum number of remaining iterations, `(retry + 1 - r429) + (retry -
rconn)`; every `continue` decreases it by exactly one, and at budget 0 the
guard `r429 ≤ retry` is necessarily false, so both exits agree. -/
def ciGo (oracle : Nat → Attempt) (retrySet : List Nat) (retry : Nat) :
    Nat → Nat → Nat → Nat → Nat → CIResult
  | 0, _, _, i, sleeps => CIResult.retriesExhausted i sleeps
  | budget + 1, r429, rconn, i, sleeps =>
      if r429 ≤ retry then
        match oracle i with
        | Attempt.http a g =>
            if 400 ≤ a ∧ a < 600 then
              if responseOk a = true ∧ a ∈ retrySet then
                ciGo oracle retrySet retry budget (r429 + 1) rconn (i + 1) (sleeps + 1)
              else CIResult.httpFailure a (i + 1) sleeps
            else if 400 ≤ g ∧ g < 600 then
              if responseOk g = true ∧ g ∈ retrySet then
                ciGo oracle retrySet retry budget (r429 + 1) rconn (i + 1) (sleeps + 1)
              else CIResult.httpFailure g (i + 1) sleeps
            else CIResult.success (i + 1) sleeps
        | Attempt.connErr =>
            if rconn < retry then
              ciGo oracle retrySet retry budget r429 (rconn + 1) (i + 1) (sleeps + 1)
            else CIResult.connFailure (i + 1) sleeps
        | Attempt.otherErr m => CIResult.otherFailure m (i + 1) sleeps
      else CIResult.retriesExhausted i sleeps

/-- Embedding of `create_indicator` (utils.py line 351) for one batch: run
the retry loop from both counters at zero, with attempt outcomes supplied
by the oracle.  `retrySet` models the configured `RETRY_STATUS_CODE` and
`retry` the retry limit (source default 3). -/
def create_indicator_run (oracle : Nat → Attempt) (retrySet : List Nat)
    (retry : Nat) : CIResult :=
  ciGo oracle retrySet retry (2 * retry + 1) 0 0 0 0

/-- Python `range(start, stop, step)` for positive step, fuel-based for
kernel evaluability (`range` with step 0 raises `ValueError` in Python;
all theorems below assume a positive step).  The fuel `stop - start`
bounds the element count. -/
def pyRangeGo (step stop : Nat) : Nat → Nat → List Nat
  | 0, _ => []
  | fuel + 1, start => if start < stop then start :: pyRangeGo step stop fuel (start + step) else []

/-- Python `range(start, stop, step)` for positive step. -/
def pyRange (start stop step : Nat) : List Nat :=
  if step = 0 then [] else pyRangeGo step stop (stop - start) start

/-- The successive batch arguments `indicators_list[i : i + M]` passed to
`create_indicator` by the loop of `submit_indicator` (utils.py line 467),
with `M` the configured `MAX_TI_INDICATORS_PER_REQUEST`. -/
def submit_batches {α : Type} (l : List α) (M : Nat) : List (List α) :=
  (pyRange 0 l.length M).map (fun i => ((l.drop i).take M))

/-- Sequence the `create_indicator` calls of `submit_indicator`; the first
raised exception propagates (the `except` clause logs and re-raises). -/
def submitGo {α : Type} (create : List α → Except String Unit) :
    List (List α) → Except String Bool
  | [] => Except.ok true
  | b :: bs =>
      match create b with
      | Except.error m => Except.error m
      | Except.ok _ => submitGo create bs

/-- Embedding of `submit_indicator` (utils.py line 453): call
`create_indicator` on each `M`-sized slice of the indicator list in order,
returning `True` when every call succeeds. -/
def submit_indicator {α : Type} (create : List α → Except String Unit)
    (M : Nat) (l : List α) : Except String Bool :=
  submitGo create (submit_batches l M)

/-- Spec-side predicate: the string is an ISO-8601 timestamp with
millisecond precision and a literal trailing `Z`, i.e. it ends in
`.` followed by exactly three decimal digits and `Z`. -/
def isMillisZ (s : String) : Bool :=
  let r := s.data.reverse
  decide (5 ≤ r.length) && (r.getD 0 ' ' == 'Z') && (r.getD 4 ' ' == '.') &&
    (r.getD 1 ' ').isDigit && (r.getD 2 ' ').isDigit && (r.getD 3 ' ').isDigit

/-- Reference chunking: split a list into consecutive slices of size
`m + 1` (the last possibly shorter).  Used to characterise
`submit_batches`. -/
def chunkList {α : Type} (m : Nat) : List α → List (List α)
  | [] => []
  | x :: xs => (x :: xs.take m) :: chunkList m (xs.drop m)
termination_by l => l.length
decreasing_by simp; omega

/-- A fixed wall-clock reading for concrete instances, matching the
docstring example time `2025-06-26T14:03:12.123Z`. -/
def t2025 : DateTime := ⟨2025, 6, 26, 14, 3, 12, 123456⟩

/-- A fixed expiration reading 30 days later. -/
def tExp2025 : DateTime := ⟨2025, 7, 26, 14, 3, 12, 123456⟩

/-- A concrete construction context for witnesses. -/
def cfg0 : Ctx :=
  ⟨[("malicious", 100), ("suspicious", 50)], "https://jbxcloud.example.net",
    t2025, t2025, t2025, tExp2025⟩

/-- Concrete report metadata for witnesses. -/
def meta0 : Dict :=
  [("webid", PyVal.pstr "12345"), ("threatname", PyVal.pstr "Emotet"),
   ("classification", PyVal.pstr "Malware"), ("detection", PyVal.pstr "malicious")]

/-- A malicious file entry carrying a filename and all three hashes. -/
def fileEntry (fname h1 h2 h3 : String) : Dict :=
  [("malicious", PyVal.pbool true), ("name", PyVal.pstr fname),
   ("md5", PyVal.pstr h1), ("sha1", PyVal.pstr h2), ("sha256", PyVal.pstr h3)]

/-- A malicious file entry carrying all three hashes but no filename. -/
def fileEntryNoName (h1 h2 h3 : String) : Dict :=
  [("malicious", PyVal.pbool true),
   ("md5", PyVal.pstr h1), ("sha1", PyVal.pstr h2), ("sha256", PyVal.pstr h3)]

/-- A malicious IP entry with the given address literal ("@malicious" is
the string-typed verdict flag, "$" the address field). -/
def ipEntry (s : String) : Dict :=
  [("@malicious", PyVal.pstr "true"), ("$", PyVal.pstr s)]

/-- An IP entry whose verdict flag is a string that `json.loads` cannot
parse. -/
def ipEntryBadVerdict : Dict :=
  [("@malicious", PyVal.pstr "yes"), ("$", PyVal.pstr "8.8.8.8")]

/-- A malicious domain entry. -/
def domEntry : Dict := [("malicious", PyVal.pbool true), ("name", PyVal.pstr "evil.com")]

set_option maxRecDepth 100000

/-- Ground-truth anchor for the UUID pipeline: the id computed by the
embedding for a domain indicator coincides with the value produced by
CPython `uuid.uuid5` for the same inputs
(`uuid5(uuid5(NAMESPACE_DNS, "JoeSandbox"), "domain:evil.com")`). -/
theorem generate_unique_id_matches_cpython :
    generate_unique_id "domain" "evil.com" =
      "indicator--a04acc61-edeb-582a-8dd2-7d18dc841712" := by decide

/-- Claim C3: `generate_unique_id` is a pure deterministic function of
(category, value, source): it equals `indicator--` followed by the
version-5 UUID of `"<category>:<value>"` under the namespace obtained as
the version-5 UUID of the source under the DNS namespace seed; identical
inputs always yield the identical string, and the default source is
`JoeSandbox`. -/
theorem c3_deterministic_id :
    (∀ t v s : String, generate_unique_id t v s =
      "indicator--" ++ uuidToString (uuid5 (uuid5 NAMESPACE_DNS s) (t ++ ":" ++ v))) ∧
    (∀ t1 v1 s1 t2 v2 s2 : String, t1 = t2 → v1 = v2 → s1 = s2 →
      generate_unique_id t1 v1 s1 = generate_unique_id t2 v2 s2) ∧
    (∀ t v : String, generate_unique_id t v = generate_unique_id t v "JoeSandbox") := by
  refine ⟨fun t v s => rfl, ?_, fun t v => rfl⟩
  intro t1 v1 s1 t2 v2 s2 h1 h2 h3
  rw [h1, h2, h3]

/-- Witness for C3 at concrete inputs: the structural equation at
`("domain", "evil.com", "JoeSandbox")` and determinism at equal literal
inputs. -/
theorem c3_deterministic_id_witness :
    generate_unique_id "domain" "evil.com" "JoeSandbox" =
      "indicator--" ++ uuidToString
        (uuid5 (uuid5 NAMESPACE_DNS "JoeSandbox") ("domain" ++ ":" ++ "evil.com")) ∧
    generate_unique_id "ip" "8.8.8.8" "JoeSandbox" =
      generate_unique_id "ip" "8.8.8.8" "JoeSandbox" :=
  ⟨c3_deterministic_id.1 "domain" "evil.com" "JoeSandbox",
   c3_deterministic_id.2.1 "ip" "8.8.8.8" "JoeSandbox" "ip" "8.8.8.8" "JoeSandbox" rfl rfl rfl⟩

/-- Claim C1 (refuted as stated — code bug): on a batch whose
authentication/ingestion calls always fail with status 429, with
`RETRY_STATUS_CODE = {429}` and retry limit 3, the claim predicts a
terminal retry-exhaustion failure after 4 attempts and 3 sleeps; the code
instead raises after exactly 1 attempt and 0 sleeps, because
`if herr.response:` tests the truthiness of the attached `requests.Response`
(`Response.__bool__` is `self.ok`, `False` for any status in 400..599), so
the retry branch guarded by it is unreachable and the handler falls through
to `raise Exception(herr)` on the first `HTTPError`. -/
theorem c1_retry_exhaustion_code_bug :
    create_indicator_run (fun _ => Attempt.http 200 429) [429] 3 =
      CIResult.httpFailure 429 1 0 ∧
    create_indicator_run (fun _ => Attempt.http 200 429) [429] 3 ≠
      CIResult.retriesExhausted 4 3 := by
  exact ⟨rfl, by decide⟩

/-- Claim C8: when the first failing HTTP call (authentication or
ingestion) returns a status code outside the configured retryable set,
`create_indicator` raises on that first attempt with zero sleeps and zero
retries, surfacing the failing status.  The first conjunct covers a
non-retryable authentication failure, the second a successful
authentication followed by a non-retryable ingestion failure. -/
theorem c8_nonretryable_short_circuit (oracle : Nat → Attempt)
    (retrySet : List Nat) (retry a g : Nat)
    (h0 : oracle 0 = Attempt.http a g) :
    (400 ≤ a → a < 600 → a ∉ retrySet →
      create_indicator_run oracle retrySet retry = CIResult.httpFailure a 1 0) ∧
    (a < 400 → 400 ≤ g → g < 600 → g ∉ retrySet →
      create_indicator_run oracle retrySet retry = CIResult.httpFailure g 1 0) := by
  constructor
  · intro ha1 ha2 ha3
    unfold create_indicator_run
    have hro : responseOk a = false := by
      simp [responseOk, ha1, ha2]
    simp [ciGo, h0, Nat.zero_le, ha1, ha2, hro]
  · intro ha hg1 hg2 hg3
    unfold create_indicator_run
    have hna : ¬ (400 ≤ a) := by omega
    have hro : responseOk g = false := by
      simp [responseOk, hg1, hg2]
    simp [ciGo, h0, Nat.zero_le, hna, hg1, hg2, hro]

/-- Witness for C8: with every attempt answering authentication 200 and
ingestion 500, retryable set {429} and retry limit 3, the run fails
immediately with status 500 after one attempt and no sleep. -/
theorem c8_nonretryable_short_circuit_witness :
    create_indicator_run (fun _ => Attempt.http 200 500) [429] 3 =
      CIResult.httpFailure 500 1 0 :=
  (c8_nonretryable_short_circuit (fun _ => Attempt.http 200 500) [429] 3 200 500 rfl).2
    (by decide) (by decide) (by decide) (by decide)


theorem pyRangeGo_stop (step stop f start : Nat) (h : stop ≤ start) :
    pyRangeGo step stop f start = [] := by
  cases f with
  | zero => rfl
  | succ f =>
    simp only [pyRangeGo]
    rw [if_neg (by omega)]

theorem pyRangeGo_shift (step stop k : Nat) :
    ∀ (f start : Nat), pyRangeGo step (stop + k) f (start + k) =
      (pyRangeGo step stop f start).map (fun x => x + k) := by
  intro f
  induction f with
  | zero => intro start; rfl
  | succ f ih =>
    intro start
    simp only [pyRangeGo]
    by_cases h : start < stop
    · rw [if_pos (by omega : start + k < stop + k), if_pos h]
      have := ih (start + step)
      simp only [List.map_cons]
      rw [show start + k + step = start + step + k from by omega, this]
    · rw [if_neg (by omega : ¬ (start + k < stop + k)), if_neg h]
      rfl

theorem pyRangeGo_fuel (step stop : Nat) (hstep : 0 < step) :
    ∀ (f₁ f₂ start : Nat), stop - start ≤ f₁ → stop - start ≤ f₂ →
      pyRangeGo step stop f₁ start = pyRangeGo step stop f₂ start := by
  intro f₁
  induction f₁ with
  | zero =>
    intro f₂ start h1 h2
    rw [pyRangeGo_stop step stop f₂ start (by omega)]
    rfl
  | succ f ih =>
    intro f₂ start h1 h2
    cases f₂ with
    | zero =>
      rw [pyRangeGo_stop step stop (f + 1) start (by omega)]
      rfl
    | succ f₂ =>
      simp only [pyRangeGo]
      by_cases h : start < stop
      · rw [if_pos h, if_pos h]
        congr 1
        exact ih f₂ (start + step) (by omega) (by omega)
      · rw [if_neg h, if_neg h]

theorem chunkList_flatten_aux {α : Type} (m : Nat) :
    ∀ (n : Nat) (l : List α), l.length ≤ n → (chunkList m l).flatten = l := by
  intro n
  induction n with
  | zero =>
    intro l h
    have hl : l = [] := List.eq_nil_of_length_eq_zero (by omega)
    subst hl
    simp [chunkList]
  | succ n ih =>
    intro l h
    cases l with
    | nil => simp [chunkList]
    | cons x xs =>
      rw [chunkList]
      simp only [List.flatten_cons]
      rw [ih (xs.drop m) (by simp at h ⊢; omega)]
      simp [List.take_append_drop]

theorem chunkList_ne_nil {α : Type} (m : Nat) (l : List α) :
    chunkList m l = [] ↔ l = [] := by
  cases l with
  | nil => simp [chunkList]
  | cons x xs => rw [chunkList]; simp


theorem chunkList_length_aux {α : Type} (m : Nat) :
    ∀ (n : Nat) (l : List α), l.length ≤ n →
      (chunkList m l).length = (l.length + m) / (m + 1) := by
  intro n
  induction n with
  | zero =>
    intro l h
    have hl : l = [] := List.eq_nil_of_length_eq_zero (by omega)
    subst hl
    simp [chunkList, Nat.div_eq_of_lt (by omega : m < m + 1)]
  | succ n ih =>
    intro l h
    cases l with
    | nil => simp [chunkList, Nat.div_eq_of_lt (by omega : m < m + 1)]
    | cons x xs =>
      rw [chunkList]
      simp only [List.length_cons]
      rw [ih (xs.drop m) (by simp at h ⊢; omega)]
      simp only [List.length_drop]
      by_cases hm : m ≤ xs.length
      · rw [show xs.length - m + m = xs.length from by omega]
        rw [show xs.length + 1 + m = xs.length + (m + 1) from by omega]
        rw [Nat.add_div_right _ (by omega : 0 < m + 1)]
      · rw [show xs.length - m = 0 from by omega]
        rw [Nat.div_eq_of_lt (by omega : 0 + m < m + 1)]
        have h1 : 1 * (m + 1) ≤ xs.length + 1 + m := by omega
        have h2 : xs.length + 1 + m < (1 + 1) * (m + 1) := by omega
        rw [Nat.div_eq_of_lt_le h1 h2]

theorem chunkList_sizes_aux {α : Type} (m : Nat) :
    ∀ (n : Nat) (l : List α), l.length ≤ n →
      ∀ b ∈ chunkList m l, b.length ≤ m + 1 ∧ b ≠ [] := by
  intro n
  induction n with
  | zero =>
    intro l h
    have hl : l = [] := List.eq_nil_of_length_eq_zero (by omega)
    subst hl
    simp [chunkList]
  | succ n ih =>
    intro l h
    cases l with
    | nil => simp [chunkList]
    | cons x xs =>
      rw [chunkList]
      intro b hb
      rcases List.mem_cons.mp hb with hb | hb
      · subst hb
        constructor
        · simp only [List.length_cons, List.length_take]
          omega
        · simp
      · exact ih (xs.drop m) (by simp at h ⊢; omega) b hb

theorem chunkList_full_aux {α : Type} (m : Nat) :
    ∀ (n : Nat) (l : List α), l.length ≤ n →
      ∀ i, i + 1 < (chunkList m l).length →
        ((chunkList m l).getD i []).length = m + 1 := by
  intro n
  induction n with
  | zero =>
    intro l h
    have hl : l = [] := List.eq_nil_of_length_eq_zero (by omega)
    subst hl
    simp [chunkList]
  | succ n ih =>
    intro l h
    cases l with
    | nil => simp [chunkList]
    | cons x xs =>
      rw [chunkList]
      intro i hi
      cases i with
      | zero =>
        simp only [List.getD_cons_zero, List.length_cons, List.length_take]
        simp only [List.length_cons] at hi
        have hne : chunkList m (xs.drop m) ≠ [] := by
          intro hc
          rw [hc] at hi
          simp at hi
        have hdrop : xs.drop m ≠ [] := by
          intro hc
          rw [(chunkList_ne_nil m (xs.drop m)).mpr hc] at hne
          exact hne rfl
        have : m < xs.length := by
          by_contra hc
          exact hdrop (List.drop_eq_nil_of_le (by omega))
        omega
      | succ j =>
        simp only [List.getD_cons_succ]
        simp only [List.length_cons] at hi
        exact ih (xs.drop m) (by simp at h ⊢; omega) j (by omega)

theorem submit_batches_eq_chunk {α : Type} (M : Nat) (hM : 0 < M) :
    ∀ (n : Nat) (l : List α), l.length ≤ n →
      submit_batches l M = chunkList (M - 1) l := by
  intro n
  induction n with
  | zero =>
    intro l h
    have hl : l = [] := List.eq_nil_of_length_eq_zero (by omega)
    subst hl
    simp only [submit_batches, pyRange, List.length_nil]
    rw [if_neg (by omega : ¬ M = 0)]
    simp [chunkList, pyRangeGo]
  | succ n ih =>
    intro l h
    cases l with
    | nil =>
      simp only [submit_batches, pyRange, List.length_nil]
      rw [if_neg (by omega : ¬ M = 0)]
      simp [chunkList, pyRangeGo]
    | cons x xs =>
      rw [chunkList]
      unfold submit_batches pyRange
      rw [if_neg (by omega : ¬ M = 0)]
      simp only [List.length_cons, Nat.sub_zero]
      rw [show pyRangeGo M (xs.length + 1) (xs.length + 1) 0 =
            0 :: pyRangeGo M (xs.length + 1) xs.length (0 + M) from by
        simp only [pyRangeGo]
        rw [if_pos (by omega)]]
      simp only [List.map_cons, List.drop_zero]
      congr 1
      · rw [show M = (M - 1) + 1 from by omega]
        simp [List.take_succ_cons]
      · by_cases hcase : xs.length + 1 ≤ M
        · rw [pyRangeGo_stop M (xs.length + 1) xs.length (0 + M) (by omega)]
          have hdrop : xs.drop (M - 1) = [] := List.drop_eq_nil_of_le (by omega)
          rw [hdrop]
          simp [chunkList]
        · have hfuel : pyRangeGo M (xs.length + 1) xs.length (0 + M) =
              pyRangeGo M (xs.length + 1) (xs.length + 1 - M) (0 + M) :=
            pyRangeGo_fuel M (xs.length + 1) hM xs.length (xs.length + 1 - M) (0 + M)
              (by omega) (by omega)
          have hshift : pyRangeGo M (xs.length + 1) (xs.length + 1 - M) (0 + M) =
              (pyRangeGo M (xs.length + 1 - M) (xs.length + 1 - M) 0).map (fun i => i + M) := by
            have hs := pyRangeGo_shift M (xs.length + 1 - M) M (xs.length + 1 - M) 0
            rw [show xs.length + 1 - M + M = xs.length + 1 from by omega] at hs
            exact hs
          rw [hfuel, hshift, List.map_map]
          have hslice : ((fun i => ((x :: xs).drop i).take M) ∘ fun i => i + M) =
              (fun i => ((xs.drop (M - 1)).drop i).take M) := by
            funext i
            show ((x :: xs).drop (i + M)).take M = ((xs.drop (M - 1)).drop i).take M
            rw [List.drop_drop]
            rw [show i + M = (M - 1 + i) + 1 from by omega]
            rw [List.drop_succ_cons]
          rw [hslice]
          have hdropc : (x :: xs).drop M = xs.drop (M - 1) := by
            rw [show M = (M - 1) + 1 from by omega]
            exact List.drop_succ_cons
          have hrec := ih ((x :: xs).drop M) (by simp at h ⊢; omega)
          unfold submit_batches pyRange at hrec
          rw [if_neg (by omega : ¬ M = 0)] at hrec
          simp only [List.length_drop, List.length_cons, Nat.sub_zero] at hrec
          rw [hdropc] at hrec
          exact hrec

/-- Claim C2: for a list of length L and maximum M per request, the batch
arguments passed to `create_indicator` by `submit_indicator` are exactly
the ceil(L/M) consecutive slices of the input in original order: their
concatenation is the input list (no indicator duplicated or dropped),
every batch is nonempty of size at most M, every batch except the last has
size exactly M, and `submit_indicator` processes precisely this batch
sequence. -/
theorem c2_batch_partition {α : Type} (l : List α) (M : Nat) (hM : 0 < M) :
    (submit_batches l M).flatten = l ∧
    (submit_batches l M).length = (l.length + M - 1) / M ∧
    (∀ b ∈ submit_batches l M, b.length ≤ M ∧ b ≠ []) ∧
    (∀ i, i + 1 < (submit_batches l M).length →
      ((submit_batches l M).getD i []).length = M) ∧
    (∀ create : List α → Except String Unit,
      submit_indicator create M l = submitGo create (submit_batches l M)) := by
  have he := submit_batches_eq_chunk M hM l.length l le_rfl
  have hm1 : M - 1 + 1 = M := by omega
  refine ⟨?_, ?_, ?_, ?_, fun create => rfl⟩
  · rw [he]
    exact chunkList_flatten_aux (M - 1) l.length l le_rfl
  · rw [he, chunkList_length_aux (M - 1) l.length l le_rfl, hm1]
    congr 1
    omega
  · rw [he]
    intro b hb
    have hb2 := chunkList_sizes_aux (M - 1) l.length l le_rfl b hb
    rw [hm1] at hb2
    exact hb2
  · rw [he]
    intro i hi
    have hb2 := chunkList_full_aux (M - 1) l.length l le_rfl i hi
    rw [hm1] at hb2
    exact hb2

/-- Witness for C2: five indicators with a maximum of two per request
batch as [[0, 1], [2, 3], [4]], whose concatenation is the input. -/
theorem c2_batch_partition_witness :
    0 < 2 ∧ (submit_batches [0, 1, 2, 3, 4] 2).flatten = [0, 1, 2, 3, 4] :=
  ⟨by decide, (c2_batch_partition [0, 1, 2, 3, 4] 2 (by decide)).1⟩

/-- Claim C9: `submit_indicator` applied to the empty indicator list makes
zero `create_indicator` calls (the batch sequence is empty) and returns
`True`. -/
theorem c9_empty_submission {α : Type} (create : List α → Except String Unit)
    (M : Nat) (hM : 0 < M) :
    submit_batches ([] : List α) M = [] ∧
    submit_indicator create M ([] : List α) = Except.ok true := by
  have h1 : submit_batches ([] : List α) M = [] := by
    simp only [submit_batches, pyRange, List.length_nil]
    rw [if_neg (by omega : ¬ M = 0)]
    simp [pyRangeGo]
  refine ⟨h1, ?_⟩
  unfold submit_indicator
  rw [h1]
  rfl

/-- Witness for C9 at maximum batch size 1 and a create stub that always
succeeds. -/
theorem c9_empty_submission_witness :
    submit_indicator (fun _ => Except.ok ()) 1 ([] : List Nat) = Except.ok true :=
  (c9_empty_submission (fun _ => Except.ok ()) 1 (by decide)).2


/-- Claim C10: in every category, an entry whose verdict field is absent
(the lookup of `malicious` resp. `@malicious` yields Python `None`) is
treated as non-malicious: it is silently skipped, produces no indicator
and raises no error; for IP entries this is because the boolean coercion
routes the non-string absent value through ordinary truthiness,
`bool(None) = False`. -/
theorem c10_absent_verdict (cfg : Ctx) (meta : Dict) (e : Dict) (xs : List Dict)
    (hd : pyGet e "malicious" = PyVal.pnone)
    (hip : pyGet e "@malicious" = PyVal.pnone) :
    str_to_bool PyVal.pnone = Except.ok (PyVal.pbool false) ∧
    add_domain_indicators cfg (e :: xs) meta = add_domain_indicators cfg xs meta ∧
    add_url_indicators cfg (e :: xs) meta = add_url_indicators cfg xs meta ∧
    add_file_indicators cfg (e :: xs) meta = add_file_indicators cfg xs meta ∧
    add_ip_indicators cfg (e :: xs) meta = add_ip_indicators cfg xs meta := by
  refine ⟨rfl, ?_, ?_, ?_, ?_⟩
  · simp only [add_domain_indicators, hd]
    simp [truthy]
  · simp only [add_url_indicators, hd]
    simp [truthy]
  · simp only [add_file_indicators, hd]
    simp [truthy]
  · simp only [add_ip_indicators, hip]
    simp [str_to_bool, truthy]

/-- Witness for C10 at the empty dict entry, whose lookups are absent. -/
theorem c10_absent_verdict_witness :
    pyGet ([] : Dict) "malicious" = PyVal.pnone ∧
    add_ip_indicators cfg0 [([] : Dict)] meta0 = add_ip_indicators cfg0 [] meta0 :=
  ⟨rfl, (c10_absent_verdict cfg0 meta0 [] [] rfl rfl).2.2.2.2⟩

/-- Counterexample to claim C4 as stated: an IP entry whose string verdict
flag `"yes"` cannot be parsed by the boolean coercion is not caught and
skipped — `str_to_bool` runs before the per-entry `try` block, so the
raised `json.JSONDecodeError` propagates and aborts the whole category,
and the well-formed entry after it is never processed. -/
theorem c4_entry_failure_counterexample :
    add_ip_indicators cfg0 [ipEntryBadVerdict, ipEntry "1.2.3.4"] meta0 =
      Except.error "Expecting value" := by rfl

/-- Claim C4 as amended: processing is per-entry compositional — each
entry of any category contributes only its own step result and the
remaining entries are processed regardless (the per-entry bodies are
total, so a body failure is confined to its entry), and an IP entry whose
value parses as no IP address is skipped inside the body contributing
nothing; however an IP entry whose string verdict flag fails boolean
coercion raises outside the per-entry `try` and aborts the whole
category, which is the single correction forced by the counterexample. -/
theorem c4_amended_per_entry (cfg : Ctx) (meta : Dict) (e : Dict) (rest : List Dict) :
    (add_domain_indicators cfg (e :: rest) meta =
      (if truthy (pyGet e "malicious") then domainStep cfg e meta else []) ++
        add_domain_indicators cfg rest meta) ∧
    (add_url_indicators cfg (e :: rest) meta =
      (if truthy (pyGet e "malicious") then urlStep cfg e meta else []) ++
        add_url_indicators cfg rest meta) ∧
    (add_file_indicators cfg (e :: rest) meta =
      (if truthy (pyGet e "malicious") then fileStep cfg e meta else []) ++
        add_file_indicators cfg rest meta) ∧
    (∀ v, str_to_bool (pyGet e "@malicious") = Except.ok v →
      add_ip_indicators cfg (e :: rest) meta =
        (add_ip_indicators cfg rest meta).map
          (fun lst => (if truthy v then ipStep cfg e meta else []) ++ lst)) ∧
    (∀ m, str_to_bool (pyGet e "@malicious") = Except.error m →
      add_ip_indicators cfg (e :: rest) meta = Except.error m) ∧
    (checkIpVal (pyGetD e "$" (PyVal.pstr "")) = Option.none → ipStep cfg e meta = []) := by
  refine ⟨?_, ?_, ?_, ?_, ?_, ?_⟩
  · simp only [add_domain_indicators]
    by_cases h : truthy (pyGet e "malicious") <;> simp [h]
  · simp only [add_url_indicators]
    by_cases h : truthy (pyGet e "malicious") <;> simp [h]
  · simp only [add_file_indicators]
    by_cases h : truthy (pyGet e "malicious") <;> simp [h]
  · intro v hv
    simp only [add_ip_indicators, hv]
    by_cases h : truthy v
    · simp only [h, if_true]
      cases hrest : add_ip_indicators cfg rest meta <;> simp [Except.map]
    · simp only [h, if_false]
      cases hrest : add_ip_indicators cfg rest meta <;> simp [Except.map]
  · intro m hm
    simp only [add_ip_indicators, hm]
  · intro hnone
    simp only [ipStep, hnone]

/-- Witness for C4 (amended) at an IP entry with an unparseable address,
which is skipped without error. -/
theorem c4_amended_per_entry_witness :
    checkIpVal (pyGetD (ipEntry "not-an-ip") "$" (PyVal.pstr "")) = Option.none ∧
    ipStep cfg0 (ipEntry "not-an-ip") meta0 = [] :=
  ⟨by decide,
   (c4_amended_per_entry cfg0 meta0 (ipEntry "not-an-ip") []).2.2.2.2.2 (by decide)⟩

/-- Claim C6: for a malicious IP entry, the emitted `indicator_types` is
`ipv4-addr` when the literal parses as IPv4 and `ipv6-addr` when it
parses as IPv6 (with the corresponding pattern and id), and a literal
parsing as neither yields no indicator and no raised error — the call
returns successfully with the entry skipped. -/
theorem c6_ip_type_dispatch (cfg : Ctx) (meta : Dict) (s : String) :
    ((parseIPv4 s).isSome = true →
      add_ip_indicators cfg [ipEntry s] meta = Except.ok
        [get_static_data cfg (generate_unique_id "ip" s) meta
          ("[ipv4-addr:value = \x27" ++ s ++ "\x27]") (PyVal.pstr s) "ipv4-addr"] ∧
      (get_static_data cfg (generate_unique_id "ip" s) meta
          ("[ipv4-addr:value = \x27" ++ s ++ "\x27]") (PyVal.pstr s)
          "ipv4-addr").indicator_types = ["ipv4-addr"]) ∧
    ((parseIPv4 s).isSome = false → parseIPv6Valid s = true →
      add_ip_indicators cfg [ipEntry s] meta = Except.ok
        [get_static_data cfg (generate_unique_id "ip" s) meta
          ("[ipv6-addr:value = \x27" ++ s ++ "\x27]") (PyVal.pstr s) "ipv6-addr"] ∧
      (get_static_data cfg (generate_unique_id "ip" s) meta
          ("[ipv6-addr:value = \x27" ++ s ++ "\x27]") (PyVal.pstr s)
          "ipv6-addr").indicator_types = ["ipv6-addr"]) ∧
    ((parseIPv4 s).isSome = false → parseIPv6Valid s = false →
      add_ip_indicators cfg [ipEntry s] meta = Except.ok []) := by
  have hverdict : str_to_bool (pyGet (ipEntry s) "@malicious") =
      Except.ok (PyVal.pbool true) := rfl
  have hip : pyGetD (ipEntry s) "$" (PyVal.pstr "") = PyVal.pstr s := rfl
  refine ⟨fun h4 => ⟨?_, rfl⟩, fun h4 h6 => ⟨?_, rfl⟩, fun h4 h6 => ?_⟩
  · simp only [add_ip_indicators, hverdict, truthy, if_true]
    simp only [ipStep, hip, checkIpVal, pyStr, check_ip, h4, if_true]
    simp
  · simp only [add_ip_indicators, hverdict, truthy, if_true]
    simp only [ipStep, hip, checkIpVal, pyStr, check_ip, h4, h6]
    simp
  · simp only [add_ip_indicators, hverdict, truthy, if_true]
    simp only [ipStep, hip, checkIpVal, pyStr, check_ip, h4, h6]
    simp

/-- Witness for C6 at the three spec inputs: `8.8.8.8` is emitted as
`ipv4-addr`, `2001:db8::1` as `ipv6-addr`, and `not-an-ip` yields no
indicator and no error. -/
theorem c6_ip_type_dispatch_witness :
    add_ip_indicators cfg0 [ipEntry "8.8.8.8"] meta0 = Except.ok
      [get_static_data cfg0 (generate_unique_id "ip" "8.8.8.8") meta0
        ("[ipv4-addr:value = \x27" ++ "8.8.8.8" ++ "\x27]") (PyVal.pstr "8.8.8.8") "ipv4-addr"] ∧
    add_ip_indicators cfg0 [ipEntry "2001:db8::1"] meta0 = Except.ok
      [get_static_data cfg0 (generate_unique_id "ip" "2001:db8::1") meta0
        ("[ipv6-addr:value = \x27" ++ "2001:db8::1" ++ "\x27]") (PyVal.pstr "2001:db8::1") "ipv6-addr"] ∧
    add_ip_indicators cfg0 [ipEntry "not-an-ip"] meta0 = Except.ok [] :=
  ⟨((c6_ip_type_dispatch cfg0 meta0 "8.8.8.8").1 (by decide)).1,
   ((c6_ip_type_dispatch cfg0 meta0 "2001:db8::1").2.1 (by decide) (by decide)).1,
   (c6_ip_type_dispatch cfg0 meta0 "not-an-ip").2.2 (by decide) (by decide)⟩


/-- Two appended character lists differ when their prefixes differ at an
index inside both prefixes. -/
theorem append_ne_append {c1 c2 r1 r2 : List Char} (i : Nat)
    (h1 : i < c1.length) (h2 : i < c2.length) (hne : c1[i]? ≠ c2[i]?) :
    c1 ++ r1 ≠ c2 ++ r2 := by
  intro he
  apply hne
  rw [← List.getElem?_append_left h1, ← List.getElem?_append_left h2, he]

/-- Two three-part string concatenations differ when their first parts
differ at an index inside both. -/
theorem concat3_ne (p q h k t u : String) (i : Nat)
    (hp : i < p.data.length) (hq : i < q.data.length)
    (hne : p.data[i]? ≠ q.data[i]?) :
    p ++ h ++ t ≠ q ++ k ++ u := by
  intro he
  have hd := congrArg String.data he
  simp only [String.data_append, List.append_assoc] at hd
  exact append_ne_append i hp hq hne hd

/-- Claim C5: a malicious file entry carrying MD5, SHA1 and SHA256 hash
values yields exactly 3 indicators, one per present hash, with pairwise
distinct patterns (`[file:hashes.\x27<algo>\x27 = \x27<hash>\x27]`) and — the hash
values and hence the derived UUIDs being distinct — pairwise distinct ids,
all sharing the display label `name = filename`; without a filename each
indicator falls back to its own hash value as label. -/
theorem c5_multi_hash_fanout (cfg : Ctx) (meta : Dict) (fname h1 h2 h3 : String)
    (hf : fname ≠ "") (hh1 : h1 ≠ "") (hh2 : h2 ≠ "") (hh3 : h3 ≠ "")
    (hid12 : generate_unique_id "file" h1 ≠ generate_unique_id "file" h2)
    (hid13 : generate_unique_id "file" h1 ≠ generate_unique_id "file" h3)
    (hid23 : generate_unique_id "file" h2 ≠ generate_unique_id "file" h3) :
    (add_file_indicators cfg [fileEntry fname h1 h2 h3] meta).length = 3 ∧
    (add_file_indicators cfg [fileEntry fname h1 h2 h3] meta).map StaticData.name =
      [PyVal.pstr fname, PyVal.pstr fname, PyVal.pstr fname] ∧
    (add_file_indicators cfg [fileEntry fname h1 h2 h3] meta).map StaticData.id =
      [generate_unique_id "file" h1, generate_unique_id "file" h2,
       generate_unique_id "file" h3] ∧
    (add_file_indicators cfg [fileEntry fname h1 h2 h3] meta).map StaticData.pattern =
      ["[file:hashes.\x27MD5\x27 = \x27" ++ h1 ++ "\x27]",
       "[file:hashes.\x27SHA-1\x27 = \x27" ++ h2 ++ "\x27]",
       "[file:hashes.\x27SHA-256\x27 = \x27" ++ h3 ++ "\x27]"] ∧
    List.Pairwise (fun a b => a ≠ b)
      ((add_file_indicators cfg [fileEntry fname h1 h2 h3] meta).map StaticData.pattern) ∧
    List.Pairwise (fun a b => a ≠ b)
      ((add_file_indicators cfg [fileEntry fname h1 h2 h3] meta).map StaticData.id) ∧
    (add_file_indicators cfg [fileEntryNoName h1 h2 h3] meta).map StaticData.name =
      [PyVal.pstr h1, PyVal.pstr h2, PyVal.pstr h3] := by
  have e1 : truthy (pyGet (fileEntry fname h1 h2 h3) "malicious") = true := rfl
  have e1n : truthy (pyGet (fileEntryNoName h1 h2 h3) "malicious") = true := rfl
  have g1 : pyGet (fileEntry fname h1 h2 h3) "md5" = PyVal.pstr h1 := rfl
  have g2 : pyGet (fileEntry fname h1 h2 h3) "sha1" = PyVal.pstr h2 := rfl
  have g3 : pyGet (fileEntry fname h1 h2 h3) "sha256" = PyVal.pstr h3 := rfl
  have gn : pyGetD (fileEntry fname h1 h2 h3) "name" (PyVal.pstr "") = PyVal.pstr fname := rfl
  have g1n : pyGet (fileEntryNoName h1 h2 h3) "md5" = PyVal.pstr h1 := rfl
  have g2n : pyGet (fileEntryNoName h1 h2 h3) "sha1" = PyVal.pstr h2 := rfl
  have g3n : pyGet (fileEntryNoName h1 h2 h3) "sha256" = PyVal.pstr h3 := rfl
  have gnn : pyGetD (fileEntryNoName h1 h2 h3) "name" (PyVal.pstr "") = PyVal.pstr "" := rfl
  have t1 : truthy (PyVal.pstr h1) = true := by simp [truthy, hh1]
  have t2 : truthy (PyVal.pstr h2) = true := by simp [truthy, hh2]
  have t3 : truthy (PyVal.pstr h3) = true := by simp [truthy, hh3]
  have tf : truthy (PyVal.pstr fname) = true := by simp [truthy, hf]
  have tfe : truthy (PyVal.pstr "") = false := by simp [truthy]
  have hout : add_file_indicators cfg [fileEntry fname h1 h2 h3] meta =
      [get_static_data cfg (generate_unique_id "file" h1) meta
         ("[file:hashes.\x27MD5\x27 = \x27" ++ h1 ++ "\x27]") (PyVal.pstr fname) "file",
       get_static_data cfg (generate_unique_id "file" h2) meta
         ("[file:hashes.\x27SHA-1\x27 = \x27" ++ h2 ++ "\x27]") (PyVal.pstr fname) "file",
       get_static_data cfg (generate_unique_id "file" h3) meta
         ("[file:hashes.\x27SHA-256\x27 = \x27" ++ h3 ++ "\x27]") (PyVal.pstr fname) "file"] := by
    simp only [add_file_indicators, e1, if_true]
    simp only [fileStep, HASH_TYPE_LIST, List.filterMap_cons, List.filterMap_nil,
      g1, g2, g3, gn, t1, t2, t3, tf, if_true, pyStr]
    simp
  have houtn : add_file_indicators cfg [fileEntryNoName h1 h2 h3] meta =
      [get_static_data cfg (generate_unique_id "file" h1) meta
         ("[file:hashes.\x27MD5\x27 = \x27" ++ h1 ++ "\x27]") (PyVal.pstr h1) "file",
       get_static_data cfg (generate_unique_id "file" h2) meta
         ("[file:hashes.\x27SHA-1\x27 = \x27" ++ h2 ++ "\x27]") (PyVal.pstr h2) "file",
       get_static_data cfg (generate_unique_id "file" h3) meta
         ("[file:hashes.\x27SHA-256\x27 = \x27" ++ h3 ++ "\x27]") (PyVal.pstr h3) "file"] := by
    simp only [add_file_indicators, e1n, if_true]
    simp only [fileStep, HASH_TYPE_LIST, List.filterMap_cons, List.filterMap_nil,
      g1n, g2n, g3n, gnn, t1, t2, t3, tfe, if_true, if_false, pyStr]
    simp
  refine ⟨?_, ?_, ?_, ?_, ?_, ?_, ?_⟩
  · rw [hout]; rfl
  · rw [hout]; rfl
  · rw [hout]; rfl
  · rw [hout]; rfl
  · rw [hout]
    simp only [List.map_cons, List.map_nil, List.pairwise_cons, List.mem_cons,
      List.mem_singleton, List.not_mem_nil]
    refine ⟨?_, ?_, ?_⟩
    · intro b hb
      rcases hb with hb | hb | hb
      · subst hb
        exact concat3_ne "[file:hashes.\x27MD5\x27 = \x27" "[file:hashes.\x27SHA-1\x27 = \x27"
          h1 h2 "\x27]" "\x27]" 14 (by decide) (by decide) (by decide)
      · subst hb
        exact concat3_ne "[file:hashes.\x27MD5\x27 = \x27" "[file:hashes.\x27SHA-256\x27 = \x27"
          h1 h3 "\x27]" "\x27]" 14 (by decide) (by decide) (by decide)
      · exact absurd hb (by simp)
    · intro b hb
      rcases hb with hb | hb
      · subst hb
        exact concat3_ne "[file:hashes.\x27SHA-1\x27 = \x27" "[file:hashes.\x27SHA-256\x27 = \x27"
          h2 h3 "\x27]" "\x27]" 18 (by decide) (by decide) (by decide)
      · exact absurd hb (by simp)
    · simp
  · rw [hout]
    simp only [List.map_cons, List.map_nil, List.pairwise_cons, List.mem_cons,
      List.mem_singleton, List.not_mem_nil]
    refine ⟨?_, ?_, ?_⟩
    · intro b hb
      rcases hb with hb | hb | hb
      · subst hb; exact hid12
      · subst hb; exact hid13
      · exact absurd hb (by simp)
    · intro b hb
      rcases hb with hb | hb
      · subst hb; exact hid23
      · exact absurd hb (by simp)
    · simp
  · rw [houtn]; rfl

/-- Witness for C5 at a concrete entry: nonempty filename and three
distinct hash values whose derived ids the kernel evaluates to be
distinct. -/
theorem c5_multi_hash_fanout_witness :
    ("evil.exe" ≠ "" ∧
      generate_unique_id "file" "aaa111" ≠ generate_unique_id "file" "bbb222") ∧
    (add_file_indicators cfg0 [fileEntry "evil.exe" "aaa111" "bbb222" "ccc333"] meta0).length = 3 ∧
    (add_file_indicators cfg0 [fileEntry "evil.exe" "aaa111" "bbb222" "ccc333"] meta0).map
      StaticData.name = [PyVal.pstr "evil.exe", PyVal.pstr "evil.exe", PyVal.pstr "evil.exe"] :=
  ⟨⟨by decide, by decide⟩,
   (c5_multi_hash_fanout cfg0 meta0 "evil.exe" "aaa111" "bbb222" "ccc333"
      (by decide) (by decide) (by decide) (by decide)
      (by decide) (by decide) (by decide)).1,
   (c5_multi_hash_fanout cfg0 meta0 "evil.exe" "aaa111" "bbb222" "ccc333"
      (by decide) (by decide) (by decide) (by decide)
      (by decide) (by decide) (by decide)).2.1⟩


/-- A decimal digit character is a digit. -/
theorem digitChar_isDigit (d : Nat) (h : d < 10) : (Nat.digitChar d).isDigit = true := by
  interval_cases d <;> decide

/-- A decimal digit character is not the dot. -/
theorem digitChar_ne_dot (d : Nat) (h : d < 10) : (Nat.digitChar d == '.') = false := by
  interval_cases d <;> decide

/-- Character content of the three-digit zero-padded rendering. -/
theorem pad3_data (n : Nat) (h : n < 1000) :
    (pad3 n).data = [Nat.digitChar (n / 100 % 10), Nat.digitChar (n / 10 % 10),
      Nat.digitChar (n % 10)] := by
  unfold pad3
  rw [if_pos h]

/-- Character content of the two-digit zero-padded rendering. -/
theorem pad2_data (n : Nat) (h : n < 100) :
    (pad2 n).data = [Nat.digitChar (n / 10 % 10), Nat.digitChar (n % 10)] := by
  unfold pad2
  rw [if_pos h]

/-- The `get_utc_time` rendering always carries millisecond precision and
a trailing `Z`. -/
theorem isMillisZ_get_utc_time (t : DateTime) (h : t.microsecond < 1000000) :
    isMillisZ (get_utc_time t) = true := by
  have hk : t.microsecond / 1000 < 1000 := by omega
  have hZ : ("Z" : String).data = ['Z'] := rfl
  have hdot : ("." : String).data = ['.'] := rfl
  have d1 := digitChar_isDigit (t.microsecond / 1000 / 100 % 10) (Nat.mod_lt _ (by omega))
  have d2 := digitChar_isDigit (t.microsecond / 1000 / 10 % 10) (Nat.mod_lt _ (by omega))
  have d3 := digitChar_isDigit (t.microsecond / 1000 % 10) (Nat.mod_lt _ (by omega))
  unfold get_utc_time isMillisZ
  simp only [String.data_append, hZ, hdot, pad3_data _ hk, List.reverse_append,
    List.reverse_cons, List.reverse_nil, List.nil_append, List.cons_append,
    List.append_assoc]
  simp [List.getD_cons_zero, List.getD_cons_succ, d1, d2, d3, List.length_cons]

/-- The second-precision `strftime` rendering plus `Z`, as used for
`valid_until`, never carries millisecond precision. -/
theorem isMillisZ_strftime_false (t : DateTime) (hmin : t.minute < 100) (hsec : t.second < 100) :
    isMillisZ (strftimeUTC t ++ "Z") = false := by
  have hZ : ("Z" : String).data = ['Z'] := rfl
  have hcolon : (":" : String).data = [':'] := rfl
  have hm2 := digitChar_ne_dot (t.minute % 10) (Nat.mod_lt _ (by omega))
  unfold strftimeUTC isMillisZ
  simp only [String.data_append, hZ, hcolon, pad2_data _ hmin, pad2_data _ hsec,
    List.reverse_append, List.reverse_cons, List.reverse_nil, List.nil_append,
    List.cons_append, List.append_assoc]
  simp [List.getD_cons_zero, List.getD_cons_succ, hm2]

/-- The `valid_until` rendering does end in a literal `Z`. -/
theorem validUntil_trailing_Z (t : DateTime) :
    (strftimeUTC t ++ "Z").data.getLast? = Option.some 'Z' := by
  have hZ : ("Z" : String).data = ['Z'] := rfl
  rw [String.data_append, hZ]
  exact List.getLast?_concat _

/-- Claim C7 as amended: of the four timestamp fields of an emitted
indicator, `created`, `modified` and `valid_from` are ISO-8601 UTC with
millisecond precision and a literal trailing `Z`, while `valid_until` —
rendered with `strftime(f"{UTC_DATE_FORMAT}Z")` — has only second
precision (no millisecond part), though it does end in a literal `Z`. -/
theorem c7_amended_timestamps (cfg : Ctx) (uid : String) (meta : Dict)
    (pat : String) (v : PyVal) (ty : String)
    (h1 : cfg.tCreated.microsecond < 1000000)
    (h2 : cfg.tModified.microsecond < 1000000)
    (h3 : cfg.tValidFrom.microsecond < 1000000)
    (h4 : cfg.tExpiration.minute < 100) (h5 : cfg.tExpiration.second < 100) :
    isMillisZ (get_static_data cfg uid meta pat v ty).created = true ∧
    isMillisZ (get_static_data cfg uid meta pat v ty).modified = true ∧
    isMillisZ (get_static_data cfg uid meta pat v ty).valid_from = true ∧
    isMillisZ (get_static_data cfg uid meta pat v ty).valid_until = false ∧
    (get_static_data cfg uid meta pat v ty).valid_until.data.getLast? = Option.some 'Z' :=
  ⟨isMillisZ_get_utc_time cfg.tCreated h1,
   isMillisZ_get_utc_time cfg.tModified h2,
   isMillisZ_get_utc_time cfg.tValidFrom h3,
   isMillisZ_strftime_false cfg.tExpiration h4 h5,
   validUntil_trailing_Z cfg.tExpiration⟩

/-- Counterexample to claim C7 as stated: a concrete indicator emitted by
`add_domain_indicators` whose `created` field has a `.mmmZ` suffix but
whose `valid_until` field does not — not every timestamp field carries
millisecond precision. -/
theorem c7_millis_counterexample :
    (add_domain_indicators cfg0 [domEntry] meta0).map
      (fun i => (isMillisZ i.created, isMillisZ i.valid_until)) = [(true, false)] := by
  decide

/-- Witness for C7 (amended) at the concrete context `cfg0`. -/
theorem c7_amended_timestamps_witness :
    cfg0.tCreated.microsecond < 1000000 ∧
    isMillisZ (get_static_data cfg0 "id0" meta0 "p" (PyVal.pstr "v") "t").created = true ∧
    isMillisZ (get_static_data cfg0 "id0" meta0 "p" (PyVal.pstr "v") "t").valid_until = false :=
  ⟨by decide,
   (c7_amended_timestamps cfg0 "id0" meta0 "p" (PyVal.pstr "v") "t"
      (by decide) (by decide) (by decide) (by decide) (by decide)).1,
   (c7_amended_timestamps cfg0 "id0" meta0 "p" (PyVal.pstr "v") "t"
      (by decide) (by decide) (by decide) (by decide) (by decide)).2.2.2.1⟩

end JoeSandbox
